import Mathlib

/-!
Verification of the StereoscopicRendering sample
(src/samples/StereoscopicRendering/src/StereoscopicRenderingApp.cpp).

The sample app itself is embedded directly from the source.  The framework
classes it calls (CameraStereo, gl::CameraStereoAutoFocuser, MayaCamUI) are
part of the repository but not under src/; their behaviour is modelled from
the specification, as marked on each definition.  Floating-point scalars are
modelled as real numbers.
-/

noncomputable section

namespace Stereo

/-- Three-component real vector, modelling cinder's Vec3f as used by the
sample. -/
structure Vec3 where
  x : ℝ
  y : ℝ
  z : ℝ

/-- Componentwise difference, modelling Vec3f subtraction. -/
def Vec3.sub (a b : Vec3) : Vec3 :=
  ⟨a.x - b.x, a.y - b.y, a.z - b.z⟩

/-- Modelled from the spec: Vec3f::length (cinder core, not under src/) is the
Euclidean norm; it is the distance measure used by the distance-based focus
modes. -/
def Vec3.length (v : Vec3) : ℝ :=
  Real.sqrt (v.x ^ 2 + v.y ^ 2 + v.z ^ 2)

/-- Modelled from the spec: the CameraStereo data (the CameraStereo class is
not under src/): the mono base pose (eye point, center of interest, field of
view, aspect ratio, near/far clip planes) plus the two stereo parameters
focalLength and eyeSeparation. -/
structure CameraStereo where
  eyePoint : Vec3
  centerOfInterest : Vec3
  fov : ℝ
  aspectRatio : ℝ
  nearClip : ℝ
  farClip : ℝ
  focalLength : ℝ
  eyeSeparation : ℝ

/-- Modelled from the spec: CameraStereo::setEyePoint stores the new eye
point. -/
def CameraStereo.setEyePoint (c : CameraStereo) (p : Vec3) : CameraStereo :=
  { c with eyePoint := p }

/-- Modelled from the spec: CameraStereo::setCenterOfInterestPoint stores the
new center of interest. -/
def CameraStereo.setCenterOfInterestPoint (c : CameraStereo) (p : Vec3) :
    CameraStereo :=
  { c with centerOfInterest := p }

/-- Modelled from the spec: CameraStereo::setFov stores the new field of
view. -/
def CameraStereo.setFov (c : CameraStereo) (v : ℝ) : CameraStereo :=
  { c with fov := v }

/-- Modelled from the spec: CameraStereo::setAspectRatio stores the new aspect
ratio, leaving every other camera parameter alone. -/
def CameraStereo.setAspectRatio (c : CameraStereo) (v : ℝ) : CameraStereo :=
  { c with aspectRatio := v }

/-- Modelled from the spec: CameraStereo::setFocalLength stores the new focal
length and does not touch the eye separation. -/
def CameraStereo.setFocalLength (c : CameraStereo) (v : ℝ) : CameraStereo :=
  { c with focalLength := v }

/-- Modelled from the spec: CameraStereo::setEyeSeparation stores the new eye
separation. -/
def CameraStereo.setEyeSeparation (c : CameraStereo) (v : ℝ) : CameraStereo :=
  { c with eyeSeparation := v }

/-- Fixed comfortable-parallax ratio between eye separation and focal length
used by setFocus; the spec's example value 1/30. -/
def focusToEyeSeparationRatio : ℝ := 1 / 30

/-- Modelled from the spec: CameraStereo::setFocus sets the focal length and
recomputes the eye separation as the fixed comfortable-parallax fraction of the
focal length. -/
def CameraStereo.setFocus (c : CameraStereo) (d : ℝ) : CameraStereo :=
  { c with focalLength := d, eyeSeparation := d * focusToEyeSeparationRatio }

/-- Clamp x into the closed interval from lo to hi, as math<float>::clamp. -/
def clampVal (x lo hi : ℝ) : ℝ := max lo (min x hi)

/-- Modelled from the spec: the state of gl::CameraStereoAutoFocuser (not
under src/): the target depth fraction in (0,1], the adjustment speed (maximal
focal-length change per second), the controller's own smoothed focal estimate,
and the clamp range for the computed focal target. -/
structure CameraStereoAutoFocuser where
  autoFocusDepth : ℝ
  autoFocusSpeed : ℝ
  currentFocalLength : ℝ
  minFocalLength : ℝ
  maxFocalLength : ℝ

/-- Modelled from the spec: setAutoFocusDepth keeps the depth fraction inside
(0,1]: values above 1 are clamped to 1, and a non-positive value is an invalid
configuration that is recovered locally by keeping the previous value, never a
hard failure. -/
def CameraStereoAutoFocuser.setAutoFocusDepth (af : CameraStereoAutoFocuser)
    (d : ℝ) : CameraStereoAutoFocuser :=
  if 0 < d then { af with autoFocusDepth := min d 1 } else af

/-- Modelled from the spec: setAutoFocusSpeed keeps the adjustment speed
strictly positive: a non-positive value is an invalid configuration that is
recovered locally by keeping the previous value. -/
def CameraStereoAutoFocuser.setAutoFocusSpeed (af : CameraStereoAutoFocuser)
    (v : ℝ) : CameraStereoAutoFocuser :=
  if 0 < v then { af with autoFocusSpeed := v } else af

/-- Modelled from the spec: one rate-limited focus step of the auto-focuser.
The raw focal target is clamped to [minFocalLength, maxFocalLength], the
smoothed focal estimate moves toward it by at most
autoFocusSpeed * deltaTime, and the result is applied to the camera via
setFocalLength, leaving the eye separation to the caller. -/
def CameraStereoAutoFocuser.focusStep (af : CameraStereoAutoFocuser)
    (cam : CameraStereo) (rawTarget deltaTime : ℝ) :
    CameraStereoAutoFocuser × CameraStereo :=
  let target := clampVal rawTarget af.minFocalLength af.maxFocalLength
  let maxStep := af.autoFocusSpeed * deltaTime
  let newFocal :=
    af.currentFocalLength +
      clampVal (target - af.currentFocalLength) (-maxStep) maxStep
  ({ af with currentFocalLength := newFocal }, cam.setFocalLength newFocal)

/-- Modelled from the spec: gl::CameraStereoAutoFocuser::autoFocus (not under
src/).  The raw focal target is the depth fraction times a distance signal:
the distance from the eye point to the center of interest (simple mode), or
the world distance recovered from a depth-buffer sample (depth mode).  A
missing depth sample leaves the controller and the camera unchanged. -/
def CameraStereoAutoFocuser.autoFocus (af : CameraStereoAutoFocuser)
    (cam : CameraStereo) (useDepthBuffer : Bool) (depthSample : Option ℝ)
    (deltaTime : ℝ) : CameraStereoAutoFocuser × CameraStereo :=
  match useDepthBuffer, depthSample with
  | true, none => (af, cam)
  | true, some zdist => af.focusStep cam (af.autoFocusDepth * zdist) deltaTime
  | false, _ =>
      af.focusStep cam
        (af.autoFocusDepth * (cam.centerOfInterest.sub cam.eyePoint).length)
        deltaTime

/-- The four auto-focus modes of the sample (the AutoFocusMethod enum). -/
inductive AutoFocusMethod
  | SET_FOCAL_LENGTH
  | SET_FOCUS
  | AUTO_FOCUS_SIMPLE
  | AUTO_FOCUS_DEPTH
deriving DecidableEq

/-- The integer value of each enumerator, following the declaration order in
the source; it realizes the ordered comparison
mFocusMethod >= AUTO_FOCUS_SIMPLE in keyDown. -/
def AutoFocusMethod.toNat : AutoFocusMethod → Nat
  | .SET_FOCAL_LENGTH => 0
  | .SET_FOCUS => 1
  | .AUTO_FOCUS_SIMPLE => 2
  | .AUTO_FOCUS_DEPTH => 3

/-- The mutable members of StereoscopicRenderingApp that the claims concern:
the stereo flag, the active focus method, the stereo camera, the MayaCamUI
helper's internal camera, and the auto-focuser.  Window-layer effects (quit,
fullscreen, vertical sync) live in the host framework, outside this state. -/
structure AppState where
  mIsStereo : Bool
  mFocusMethod : AutoFocusMethod
  mCamera : CameraStereo
  mMayaCam : CameraStereo
  mAF : CameraStereoAutoFocuser

/-- StereoscopicRenderingApp::update.  The depth-buffer sample used by
AUTO_FOCUS_DEPTH is produced by the render layer and the frame time by the
frame clock; both are passed in explicitly here. -/
def update (s : AppState) (depthSample : Option ℝ) (deltaTime : ℝ) :
    AppState :=
  match s.mFocusMethod with
  | .SET_FOCAL_LENGTH =>
      let d := (s.mCamera.centerOfInterest.sub s.mCamera.eyePoint).length
      let f := min 5 (d * 0.5)
      { s with mCamera := (s.mCamera.setFocalLength f).setEyeSeparation 0.05 }
  | .SET_FOCUS =>
      let d := (s.mCamera.centerOfInterest.sub s.mCamera.eyePoint).length
      let f := min 5 (d * 0.5)
      { s with mCamera := s.mCamera.setFocus f }
  | .AUTO_FOCUS_SIMPLE =>
      let r := s.mAF.autoFocus s.mCamera false depthSample deltaTime
      { s with mAF := r.1, mCamera := r.2 }
  | .AUTO_FOCUS_DEPTH =>
      let r := s.mAF.autoFocus s.mCamera true depthSample deltaTime
      { s with mAF := r.1, mCamera := r.2 }

/-- Which camera is active when a scene pass is issued. -/
inductive EyeMode
  | left
  | right
  | mono
deriving DecidableEq

/-- An axis-aligned pixel area, as cinder's Area(x1, y1, x2, y2). -/
structure Area where
  x1 : Int
  y1 : Int
  x2 : Int
  y2 : Int
deriving DecidableEq

/-- One call to render(), together with the camera mode active for it and the
viewport it is issued into (none = the window's current full viewport). -/
structure ScenePass where
  eye : EyeMode
  viewport : Option Area
deriving DecidableEq

/-- StereoscopicRenderingApp::draw, abstracted to the sequence of scene render
passes it issues: with stereo enabled, the left-eye camera into the left half
viewport and then the right-eye camera into the right half; otherwise a single
mono pass into the current viewport.  The 2D overlay drawn by renderUI issues
no scene pass. -/
def draw (isStereo : Bool) (w h : Int) : List ScenePass :=
  if isStereo then
    [ { eye := .left, viewport := some ⟨0, 0, w / 2, h⟩ },
      { eye := .right, viewport := some ⟨w / 2, 0, w, h⟩ } ]
  else
    [ { eye := .mono, viewport := none } ]

/-- The key codes the sample's keyDown handler reacts to, plus a catch-all
for every other key. -/
inductive Key
  | KEY_ESCAPE
  | KEY_f
  | KEY_s
  | KEY_v
  | KEY_1
  | KEY_2
  | KEY_3
  | KEY_4
  | KEY_UP
  | KEY_DOWN
  | KEY_SPACE
  | KEY_LEFT
  | KEY_RIGHT
  | otherKey
deriving DecidableEq

/-- StereoscopicRenderingApp::keyDown.  ESCAPE (quit), f (fullscreen toggle)
and v (vertical sync toggle) act on the window layer only, so they leave this
state unchanged. -/
def keyDown (k : Key) (s : AppState) : AppState :=
  match k with
  | .KEY_ESCAPE => s
  | .KEY_f => s
  | .KEY_s => { s with mIsStereo := !s.mIsStereo }
  | .KEY_v => s
  | .KEY_1 => { s with mFocusMethod := .SET_FOCAL_LENGTH }
  | .KEY_2 => { s with mFocusMethod := .SET_FOCUS }
  | .KEY_3 => { s with mFocusMethod := .AUTO_FOCUS_SIMPLE }
  | .KEY_4 => { s with mFocusMethod := .AUTO_FOCUS_DEPTH }
  | .KEY_UP =>
      if AutoFocusMethod.AUTO_FOCUS_SIMPLE.toNat ≤ s.mFocusMethod.toNat then
        { s with
          mAF := s.mAF.setAutoFocusDepth (s.mAF.autoFocusDepth + 0.05) }
      else s
  | .KEY_DOWN =>
      if AutoFocusMethod.AUTO_FOCUS_SIMPLE.toNat ≤ s.mFocusMethod.toNat then
        { s with
          mAF := s.mAF.setAutoFocusDepth (s.mAF.autoFocusDepth - 0.05) }
      else s
  | .KEY_SPACE => { s with mAF := s.mAF.setAutoFocusDepth 1.0 }
  | .KEY_LEFT =>
      { s with mAF := s.mAF.setAutoFocusSpeed (s.mAF.autoFocusSpeed - 0.01) }
  | .KEY_RIGHT =>
      { s with mAF := s.mAF.setAutoFocusSpeed (s.mAF.autoFocusSpeed + 0.01) }
  | .otherKey => s

/-- StereoscopicRenderingApp::resize: store the new aspect ratio in the stereo
camera and copy the camera into the MayaCamUI helper. -/
def resize (s : AppState) (newAspect : ℝ) : AppState :=
  let cam := s.mCamera.setAspectRatio newAspect
  { s with mCamera := cam, mMayaCam := cam }

/-- StereoscopicRenderingApp::mouseDrag.  Modelled from the spec: MayaCamUI's
orbit computation (not under src/) turns the drag into a new orbit camera,
taken here as the input orbitCam.  The handler stores it in the helper and
copies its eye point and center of interest into the stereo camera. -/
def mouseDrag (s : AppState) (orbitCam : CameraStereo) : AppState :=
  { s with
    mMayaCam := orbitCam,
    mCamera :=
      (s.mCamera.setEyePoint orbitCam.eyePoint).setCenterOfInterestPoint
        orbitCam.centerOfInterest }

/-- Modelled from the spec: default-constructed CameraStereo values for the
fields setup does not assign (clip planes, aspect ratio, focal length, eye
separation); the concrete numbers stand for the framework defaults. -/
def defaultCamera : CameraStereo :=
  { eyePoint := ⟨0, 0, 0⟩,
    centerOfInterest := ⟨0, 0, -1⟩,
    fov := 35,
    aspectRatio := 4 / 3,
    nearClip := 0.1,
    farClip := 1000,
    focalLength := 1,
    eyeSeparation := 0.05 }

/-- Modelled from the spec: the auto-focuser's initial state.  The depth
fraction defaults to 1.0 (focus on the nearest surveyed object), the
adjustment speed to a positive rate (the spec's example 0.05 per second), and
the focal clamp range to [1, 5], with 5 the sample's maximal focal length. -/
def defaultAutoFocuser : CameraStereoAutoFocuser :=
  { autoFocusDepth := 1,
    autoFocusSpeed := 0.05,
    currentFocalLength := 1,
    minFocalLength := 1,
    maxFocalLength := 5 }

/-- StereoscopicRenderingApp::setup: stereo rendering on, AUTO_FOCUS_DEPTH
mode, the camera's eye point, center of interest and field of view as set in
the source, and the MayaCamUI helper initialized with the camera. -/
def setup : AppState :=
  let cam :=
    ((defaultCamera.setEyePoint ⟨0.2, 1.3, -11.5⟩).setCenterOfInterestPoint
        ⟨0.5, 1.5, -0.1⟩).setFov 60
  { mIsStereo := true,
    mFocusMethod := .AUTO_FOCUS_DEPTH,
    mCamera := cam,
    mMayaCam := cam,
    mAF := defaultAutoFocuser }

/-- Fold a sequence of key events through the keyDown handler. -/
def applyKeys (ks : List Key) (s : AppState) : AppState :=
  ks.foldl (fun t k => keyDown k t) s

/-- A concrete camera used to instantiate universally quantified theorems:
its eye point and center of interest are a Euclidean distance 5 apart. -/
def camW : CameraStereo :=
  { eyePoint := ⟨0, 0, 0⟩,
    centerOfInterest := ⟨3, 4, 0⟩,
    fov := 60,
    aspectRatio := 16 / 9,
    nearClip := 0.1,
    farClip := 1000,
    focalLength := 1,
    eyeSeparation := 1 }

/-- A concrete app state in AUTO_FOCUS_SIMPLE mode built on camW. -/
def stateSimple : AppState :=
  { mIsStereo := true,
    mFocusMethod := .AUTO_FOCUS_SIMPLE,
    mCamera := camW,
    mMayaCam := camW,
    mAF := defaultAutoFocuser }

/-- The same concrete state with the SET_FOCAL_LENGTH mode active. -/
def stateFLen : AppState :=
  { stateSimple with mFocusMethod := .SET_FOCAL_LENGTH }

/-- The same concrete state with the SET_FOCUS mode active. -/
def stateFocus : AppState :=
  { stateSimple with mFocusMethod := .SET_FOCUS }

/-- The distance between camW's center of interest and eye point is 5. -/
theorem camW_dist : (camW.centerOfInterest.sub camW.eyePoint).length = 5 := by
  show Real.sqrt (((3 : ℝ) - 0) ^ 2 + ((4 : ℝ) - 0) ^ 2 + ((0 : ℝ) - 0) ^ 2) = 5
  rw [show ((3 : ℝ) - 0) ^ 2 + ((4 : ℝ) - 0) ^ 2 + ((0 : ℝ) - 0) ^ 2 = 5 ^ 2 by
    norm_num]
  exact Real.sqrt_sq (by norm_num)

/-- A clamp into a symmetric interval moves by at most the interval radius. -/
theorem abs_clampVal_le (x c : ℝ) (hc : 0 ≤ c) : |clampVal x (-c) c| ≤ c := by
  rw [abs_le]
  constructor
  · exact le_max_left _ _
  · exact max_le (by linarith) (min_le_right _ _)

/-- C2: with stereoscopic rendering enabled, draw issues exactly two scene
passes, the first with the left-eye camera into the left half viewport
Area(0, 0, w/2, h) and the second with the right-eye camera into the right
half viewport Area(w/2, 0, w, h); with it disabled, draw issues exactly one
scene pass with the mono camera. -/
theorem draw_stereo_two_passes_mono_one (w h : Int) :
    draw true w h =
      [ { eye := .left, viewport := some ⟨0, 0, w / 2, h⟩ },
        { eye := .right, viewport := some ⟨w / 2, 0, w, h⟩ } ] ∧
    draw false w h = [ { eye := .mono, viewport := none } ] :=
  ⟨rfl, rfl⟩

/-- C5: the resize handler changes only the camera's aspect ratio: the eye
separation, the focal length, the camera pose and the auto-focuser state are
the same after the handler as before it. -/
theorem resize_changes_only_aspectRatio (s : AppState) (a : ℝ) :
    (resize s a).mCamera.eyeSeparation = s.mCamera.eyeSeparation ∧
    (resize s a).mCamera.focalLength = s.mCamera.focalLength ∧
    (resize s a).mCamera.aspectRatio = a ∧
    (resize s a).mCamera.eyePoint = s.mCamera.eyePoint ∧
    (resize s a).mCamera.centerOfInterest = s.mCamera.centerOfInterest ∧
    (resize s a).mCamera.fov = s.mCamera.fov ∧
    (resize s a).mAF = s.mAF :=
  ⟨rfl, rfl, rfl, rfl, rfl, rfl, rfl⟩

/-- C6: each of the keys 1-4 switches the focus method immediately and changes
nothing else: the resulting state is the old state with only the mode selector
replaced, so the camera's focal length and eye separation and the whole
auto-focuser state (depth fraction, speed, current focal estimate) are
untouched. -/
theorem mode_keys_change_only_mode (s : AppState) :
    keyDown .KEY_1 s = { s with mFocusMethod := .SET_FOCAL_LENGTH } ∧
    keyDown .KEY_2 s = { s with mFocusMethod := .SET_FOCUS } ∧
    keyDown .KEY_3 s = { s with mFocusMethod := .AUTO_FOCUS_SIMPLE } ∧
    keyDown .KEY_4 s = { s with mFocusMethod := .AUTO_FOCUS_DEPTH } :=
  ⟨rfl, rfl, rfl, rfl⟩

/-- C10: a mouse drag copies the orbit camera's eye point and center of
interest into the stereo camera and leaves the stereo camera's focal length,
eye separation and field of view unchanged. -/
theorem mouseDrag_updates_only_pose (s : AppState) (orbitCam : CameraStereo) :
    (mouseDrag s orbitCam).mCamera.eyePoint = orbitCam.eyePoint ∧
    (mouseDrag s orbitCam).mCamera.centerOfInterest =
      orbitCam.centerOfInterest ∧
    (mouseDrag s orbitCam).mCamera.focalLength = s.mCamera.focalLength ∧
    (mouseDrag s orbitCam).mCamera.eyeSeparation = s.mCamera.eyeSeparation ∧
    (mouseDrag s orbitCam).mCamera.fov = s.mCamera.fov :=
  ⟨rfl, rfl, rfl, rfl, rfl⟩

/-- C1: in the SET_FOCAL_LENGTH and SET_FOCUS modes, every update computes the
target focal length min(5, 0.5 * d), with d the Euclidean distance from the
camera's eye point to its center of interest, and applies that value to the
camera. -/
theorem update_distance_focal_target (s : AppState) (ds : Option ℝ) (dt : ℝ) :
    (s.mFocusMethod = .SET_FOCAL_LENGTH →
      (update s ds dt).mCamera.focalLength =
        min 5
          (0.5 * (s.mCamera.centerOfInterest.sub s.mCamera.eyePoint).length)) ∧
    (s.mFocusMethod = .SET_FOCUS →
      (update s ds dt).mCamera.focalLength =
        min 5
          (0.5 * (s.mCamera.centerOfInterest.sub s.mCamera.eyePoint).length)) := by
  obtain ⟨st, m, cam, maya, af⟩ := s
  refine ⟨fun h => ?_, fun h => ?_⟩ <;>
  · cases h
    show min 5 ((cam.centerOfInterest.sub cam.eyePoint).length * 0.5) =
      min 5 (0.5 * (cam.centerOfInterest.sub cam.eyePoint).length)
    rw [mul_comm]

/-- C1 witness: in the concrete states stateFLen and stateFocus the distance
from the eye point to the center of interest is 5, and one update sets the
camera's focal length to min(5, 0.5 * 5) = 5/2 in both modes. -/
theorem update_distance_focal_target_witness :
    (update stateFLen none 1).mCamera.focalLength = 5 / 2 ∧
    (update stateFocus none 1).mCamera.focalLength = 5 / 2 := by
  constructor
  · rw [(update_distance_focal_target stateFLen none 1).1 rfl]
    show min 5 (0.5 * (camW.centerOfInterest.sub camW.eyePoint).length) = 5 / 2
    rw [camW_dist, show (0.5 : ℝ) * 5 = 5 / 2 by norm_num]
    exact min_eq_right (by norm_num)
  · rw [(update_distance_focal_target stateFocus none 1).2 rfl]
    show min 5 (0.5 * (camW.centerOfInterest.sub camW.eyePoint).length) = 5 / 2
    rw [camW_dist, show (0.5 : ℝ) * 5 = 5 / 2 by norm_num]
    exact min_eq_right (by norm_num)

/-- The auto-focuser applies its result through setFocalLength only, so the
camera's eye separation survives every autoFocus call unchanged. -/
theorem autoFocus_preserves_eyeSeparation (af : CameraStereoAutoFocuser)
    (cam : CameraStereo) (b : Bool) (ds : Option ℝ) (dt : ℝ) :
    (af.autoFocus cam b ds dt).2.eyeSeparation = cam.eyeSeparation := by
  cases b with
  | false => rfl
  | true =>
      cases ds with
      | none => rfl
      | some z => rfl

/-- C4: exactly two of the four focus modes write the camera's eye separation
during update: the two auto-focuser modes leave it unchanged in every state,
while SET_FOCAL_LENGTH and SET_FOCUS each change it in some state. -/
theorem eyeSeparation_mode_asymmetry :
    (∀ (s : AppState) (ds : Option ℝ) (dt : ℝ),
      s.mFocusMethod = .AUTO_FOCUS_SIMPLE →
        (update s ds dt).mCamera.eyeSeparation = s.mCamera.eyeSeparation) ∧
    (∀ (s : AppState) (ds : Option ℝ) (dt : ℝ),
      s.mFocusMethod = .AUTO_FOCUS_DEPTH →
        (update s ds dt).mCamera.eyeSeparation = s.mCamera.eyeSeparation) ∧
    (∃ s : AppState, s.mFocusMethod = .SET_FOCAL_LENGTH ∧
      (update s none 1).mCamera.eyeSeparation ≠ s.mCamera.eyeSeparation) ∧
    (∃ s : AppState, s.mFocusMethod = .SET_FOCUS ∧
      (update s none 1).mCamera.eyeSeparation ≠ s.mCamera.eyeSeparation) := by
  refine ⟨?_, ?_, ⟨stateFLen, rfl, ?_⟩, ⟨stateFocus, rfl, ?_⟩⟩
  · intro s ds dt h
    obtain ⟨st, m, cam, maya, af⟩ := s
    cases h
    exact autoFocus_preserves_eyeSeparation af cam false ds dt
  · intro s ds dt h
    obtain ⟨st, m, cam, maya, af⟩ := s
    cases h
    exact autoFocus_preserves_eyeSeparation af cam true ds dt
  · show (0.05 : ℝ) ≠ 1
    norm_num
  · show min 5 ((camW.centerOfInterest.sub camW.eyePoint).length * 0.5) *
      focusToEyeSeparationRatio ≠ 1
    rw [camW_dist, show (5 : ℝ) * 0.5 = 5 / 2 by norm_num,
      min_eq_right (by norm_num : (5 : ℝ) / 2 ≤ 5)]
    rw [focusToEyeSeparationRatio]
    norm_num

/-- C4 witness: in the concrete AUTO_FOCUS_SIMPLE state stateSimple, and in
its AUTO_FOCUS_DEPTH variant, one update leaves the camera's eye separation
unchanged. -/
theorem eyeSeparation_mode_asymmetry_witness :
    (update stateSimple none 1).mCamera.eyeSeparation =
      stateSimple.mCamera.eyeSeparation ∧
    (update { stateSimple with mFocusMethod := .AUTO_FOCUS_DEPTH } none
        1).mCamera.eyeSeparation =
      ({ stateSimple with
          mFocusMethod := .AUTO_FOCUS_DEPTH } : AppState).mCamera.eyeSeparation :=
  ⟨eyeSeparation_mode_asymmetry.1 stateSimple none 1 rfl,
   eyeSeparation_mode_asymmetry.2.1
     { stateSimple with mFocusMethod := .AUTO_FOCUS_DEPTH } none 1 rfl⟩

/-- One rate-limited focus step moves the smoothed focal estimate by at most
autoFocusSpeed * deltaTime, and writes exactly that estimate into the
camera. -/
theorem focusStep_rate (af : CameraStereoAutoFocuser) (cam : CameraStereo)
    (rawTarget dt : ℝ) (hdt : 0 ≤ dt) (hs : 0 ≤ af.autoFocusSpeed) :
    |(af.focusStep cam rawTarget dt).1.currentFocalLength -
        af.currentFocalLength| ≤ af.autoFocusSpeed * dt ∧
    (af.focusStep cam rawTarget dt).2.focalLength =
      (af.focusStep cam rawTarget dt).1.currentFocalLength := by
  constructor
  · show |af.currentFocalLength +
        clampVal
          (clampVal rawTarget af.minFocalLength af.maxFocalLength -
            af.currentFocalLength)
          (-(af.autoFocusSpeed * dt)) (af.autoFocusSpeed * dt) -
        af.currentFocalLength| ≤ af.autoFocusSpeed * dt
    rw [add_sub_cancel_left]
    exact abs_clampVal_le _ _ (mul_nonneg hs hdt)
  · rfl

/-- Every autoFocus call moves the smoothed focal estimate by at most
autoFocusSpeed * deltaTime, and when the camera starts in sync with the
estimate the camera's focal length also moves by at most that bound. -/
theorem autoFocus_rate (af : CameraStereoAutoFocuser) (cam : CameraStereo)
    (b : Bool) (ds : Option ℝ) (dt : ℝ) (hdt : 0 ≤ dt)
    (hs : 0 ≤ af.autoFocusSpeed) :
    |(af.autoFocus cam b ds dt).1.currentFocalLength -
        af.currentFocalLength| ≤ af.autoFocusSpeed * dt ∧
    (cam.focalLength = af.currentFocalLength →
      |(af.autoFocus cam b ds dt).2.focalLength - cam.focalLength| ≤
        af.autoFocusSpeed * dt) := by
  have hzero : |(0 : ℝ)| ≤ af.autoFocusSpeed * dt := by
    rw [abs_zero]
    exact mul_nonneg hs hdt
  cases b with
  | false =>
      have h := focusStep_rate af cam
        (af.autoFocusDepth * (cam.centerOfInterest.sub cam.eyePoint).length)
        dt hdt hs
      exact ⟨h.1, fun hsync => by rw [show (af.autoFocus cam false ds dt).2 =
        (af.focusStep cam
          (af.autoFocusDepth * (cam.centerOfInterest.sub cam.eyePoint).length)
          dt).2 from rfl, h.2, hsync]; exact h.1⟩
  | true =>
      cases ds with
      | none =>
          constructor
          · show |af.currentFocalLength - af.currentFocalLength| ≤
              af.autoFocusSpeed * dt
            rw [sub_self]
            exact hzero
          · intro hsync
            show |cam.focalLength - cam.focalLength| ≤ af.autoFocusSpeed * dt
            rw [sub_self]
            exact hzero
      | some z =>
          have h := focusStep_rate af cam (af.autoFocusDepth * z) dt hdt hs
          exact ⟨h.1, fun hsync => by
            rw [show (af.autoFocus cam true (some z) dt).2 =
              (af.focusStep cam (af.autoFocusDepth * z) dt).2 from rfl, h.2,
              hsync]; exact h.1⟩

/-- C3: one auto-focus update (the per-frame step of the AUTO_FOCUS_SIMPLE and
AUTO_FOCUS_DEPTH modes) changes the camera's focal length, and the
controller's smoothed estimate, by at most autoFocusSpeed * deltaTime, for
every focal target including extreme jumps; the camera starts the step in
sync with the controller's estimate. -/
theorem autoFocus_rate_limited (s : AppState) (ds : Option ℝ) (dt : ℝ)
    (hdt : 0 ≤ dt) (hs : 0 ≤ s.mAF.autoFocusSpeed)
    (hmode : s.mFocusMethod = .AUTO_FOCUS_SIMPLE ∨
      s.mFocusMethod = .AUTO_FOCUS_DEPTH)
    (hsync : s.mCamera.focalLength = s.mAF.currentFocalLength) :
    |(update s ds dt).mCamera.focalLength - s.mCamera.focalLength| ≤
      s.mAF.autoFocusSpeed * dt ∧
    |(update s ds dt).mAF.currentFocalLength - s.mAF.currentFocalLength| ≤
      s.mAF.autoFocusSpeed * dt := by
  obtain ⟨st, m, cam, maya, af⟩ := s
  rcases hmode with h | h <;> cases h
  · have h2 := autoFocus_rate af cam false ds dt hdt hs
    exact ⟨h2.2 hsync, h2.1⟩
  · have h2 := autoFocus_rate af cam true ds dt hdt hs
    exact ⟨h2.2 hsync, h2.1⟩

/-- C3 witness: in the concrete state stateSimple (speed 0.05, current focal
estimate 1, camera in sync, focal target 5 after clamping) one update with
deltaTime 1 moves the camera's focal length by at most 0.05. -/
theorem autoFocus_rate_limited_witness :
    |(update stateSimple none 1).mCamera.focalLength -
        stateSimple.mCamera.focalLength| ≤
      stateSimple.mAF.autoFocusSpeed * 1 :=
  (autoFocus_rate_limited stateSimple none 1 (by norm_num)
    (by show (0 : ℝ) ≤ 0.05; norm_num) (Or.inl rfl) rfl).1

/-- The depth setter keeps the depth fraction in (0,1]. -/
theorem setAutoFocusDepth_mem (af : CameraStereoAutoFocuser) (d : ℝ)
    (h1 : 0 < af.autoFocusDepth) (h2 : af.autoFocusDepth ≤ 1) :
    0 < (af.setAutoFocusDepth d).autoFocusDepth ∧
      (af.setAutoFocusDepth d).autoFocusDepth ≤ 1 := by
  unfold CameraStereoAutoFocuser.setAutoFocusDepth
  split
  · next hd => exact ⟨lt_min hd one_pos, min_le_right _ _⟩
  · exact ⟨h1, h2⟩

/-- The depth setter does not touch the adjustment speed. -/
theorem setAutoFocusDepth_speed (af : CameraStereoAutoFocuser) (d : ℝ) :
    (af.setAutoFocusDepth d).autoFocusSpeed = af.autoFocusSpeed := by
  unfold CameraStereoAutoFocuser.setAutoFocusDepth
  split <;> rfl

/-- The speed setter keeps the adjustment speed strictly positive. -/
theorem setAutoFocusSpeed_pos (af : CameraStereoAutoFocuser) (v : ℝ)
    (h : 0 < af.autoFocusSpeed) :
    0 < (af.setAutoFocusSpeed v).autoFocusSpeed := by
  unfold CameraStereoAutoFocuser.setAutoFocusSpeed
  split
  · next hv => exact hv
  · exact h

/-- The speed setter does not touch the depth fraction. -/
theorem setAutoFocusSpeed_depth (af : CameraStereoAutoFocuser) (v : ℝ) :
    (af.setAutoFocusSpeed v).autoFocusDepth = af.autoFocusDepth := by
  unfold CameraStereoAutoFocuser.setAutoFocusSpeed
  split <;> rfl

/-- Every single key event keeps the depth fraction in (0,1]. -/
theorem keyDown_depth_mem (k : Key) (s : AppState)
    (h1 : 0 < s.mAF.autoFocusDepth) (h2 : s.mAF.autoFocusDepth ≤ 1) :
    0 < (keyDown k s).mAF.autoFocusDepth ∧
      (keyDown k s).mAF.autoFocusDepth ≤ 1 := by
  cases k <;> try exact ⟨h1, h2⟩
  case KEY_UP =>
    simp only [keyDown]
    split
    · exact setAutoFocusDepth_mem _ _ h1 h2
    · exact ⟨h1, h2⟩
  case KEY_DOWN =>
    simp only [keyDown]
    split
    · exact setAutoFocusDepth_mem _ _ h1 h2
    · exact ⟨h1, h2⟩
  case KEY_SPACE => exact setAutoFocusDepth_mem _ _ h1 h2
  case KEY_LEFT =>
    have e : (keyDown Key.KEY_LEFT s).mAF.autoFocusDepth =
        s.mAF.autoFocusDepth :=
      setAutoFocusSpeed_depth s.mAF (s.mAF.autoFocusSpeed - 0.01)
    rw [e]
    exact ⟨h1, h2⟩
  case KEY_RIGHT =>
    have e : (keyDown Key.KEY_RIGHT s).mAF.autoFocusDepth =
        s.mAF.autoFocusDepth :=
      setAutoFocusSpeed_depth s.mAF (s.mAF.autoFocusSpeed + 0.01)
    rw [e]
    exact ⟨h1, h2⟩

/-- Every single key event keeps the adjustment speed strictly positive. -/
theorem keyDown_speed_pos (k : Key) (s : AppState)
    (h : 0 < s.mAF.autoFocusSpeed) : 0 < (keyDown k s).mAF.autoFocusSpeed := by
  cases k <;> try exact h
  case KEY_UP =>
    simp only [keyDown]
    split
    · rw [setAutoFocusDepth_speed]
      exact h
    · exact h
  case KEY_DOWN =>
    simp only [keyDown]
    split
    · rw [setAutoFocusDepth_speed]
      exact h
    · exact h
  case KEY_SPACE =>
    have e : (keyDown Key.KEY_SPACE s).mAF.autoFocusSpeed =
        s.mAF.autoFocusSpeed :=
      setAutoFocusDepth_speed s.mAF 1.0
    rw [e]
    exact h
  case KEY_LEFT =>
    exact setAutoFocusSpeed_pos s.mAF (s.mAF.autoFocusSpeed - 0.01) h
  case KEY_RIGHT =>
    exact setAutoFocusSpeed_pos s.mAF (s.mAF.autoFocusSpeed + 0.01) h

/-- A whole key sequence keeps the depth fraction in (0,1]. -/
theorem applyKeys_depth_mem (ks : List Key) (s : AppState)
    (h1 : 0 < s.mAF.autoFocusDepth) (h2 : s.mAF.autoFocusDepth ≤ 1) :
    0 < (applyKeys ks s).mAF.autoFocusDepth ∧
      (applyKeys ks s).mAF.autoFocusDepth ≤ 1 := by
  induction ks generalizing s with
  | nil => exact ⟨h1, h2⟩
  | cons k ks ih =>
      have h := keyDown_depth_mem k s h1 h2
      exact ih (keyDown k s) h.1 h.2

/-- A whole key sequence keeps the adjustment speed strictly positive. -/
theorem applyKeys_speed_pos (ks : List Key) (s : AppState)
    (h : 0 < s.mAF.autoFocusSpeed) :
    0 < (applyKeys ks s).mAF.autoFocusSpeed := by
  induction ks generalizing s with
  | nil => exact h
  | cons k ks ih => exact ih (keyDown k s) (keyDown_speed_pos k s h)

/-- C7: starting from the default depth fraction 1.0 established at setup,
after every sequence of key events (UP adds 0.05, DOWN subtracts 0.05, SPACE
resets to 1.0) the stored auto-focus depth stays strictly positive and at
most 1. -/
theorem autoFocusDepth_in_unit_interval (ks : List Key) :
    0 < (applyKeys ks setup).mAF.autoFocusDepth ∧
      (applyKeys ks setup).mAF.autoFocusDepth ≤ 1 :=
  applyKeys_depth_mem ks setup (by show (0 : ℝ) < 1; norm_num)
    (by show (1 : ℝ) ≤ 1; norm_num)

/-- C8: starting from the positive default adjustment speed established at
setup, after every sequence of key events (LEFT subtracts 0.01, RIGHT adds
0.01) the stored auto-focus speed stays strictly greater than zero. -/
theorem autoFocusSpeed_stays_pos (ks : List Key) :
    0 < (applyKeys ks setup).mAF.autoFocusSpeed :=
  applyKeys_speed_pos ks setup (by show (0 : ℝ) < 0.05; norm_num)

/-- C9 counterexample: in the concrete state stateFLen the SET_FOCAL_LENGTH
mode is active, and pressing UP or DOWN leaves the stored auto-focus depth
fraction (and the whole state) unchanged, so it is not true that UP and DOWN
change the stored depth fraction in every mode. -/
theorem up_down_keys_ignored_in_set_modes :
    stateFLen.mFocusMethod = .SET_FOCAL_LENGTH ∧
    (keyDown .KEY_UP stateFLen).mAF.autoFocusDepth =
      stateFLen.mAF.autoFocusDepth ∧
    (keyDown .KEY_DOWN stateFLen).mAF.autoFocusDepth =
      stateFLen.mAF.autoFocusDepth :=
  ⟨rfl, rfl, rfl⟩

/-- C9 amended: mode, depth fraction and adjustment speed are mutable at
runtime through key input with immediate effect on the stored state, but UP
and DOWN act on the depth fraction only when the mode is AUTO_FOCUS_SIMPLE or
AUTO_FOCUS_DEPTH; in SET_FOCAL_LENGTH and SET_FOCUS they leave the state
unchanged.  LEFT and RIGHT adjust the speed in every mode. -/
theorem runtime_config_keys (s : AppState) :
    ((s.mFocusMethod = .AUTO_FOCUS_SIMPLE ∨
        s.mFocusMethod = .AUTO_FOCUS_DEPTH) →
      (keyDown .KEY_UP s).mAF =
        s.mAF.setAutoFocusDepth (s.mAF.autoFocusDepth + 0.05) ∧
      (keyDown .KEY_DOWN s).mAF =
        s.mAF.setAutoFocusDepth (s.mAF.autoFocusDepth - 0.05)) ∧
    ((s.mFocusMethod = .SET_FOCAL_LENGTH ∨ s.mFocusMethod = .SET_FOCUS) →
      keyDown .KEY_UP s = s ∧ keyDown .KEY_DOWN s = s) ∧
    (keyDown .KEY_LEFT s).mAF =
      s.mAF.setAutoFocusSpeed (s.mAF.autoFocusSpeed - 0.01) ∧
    (keyDown .KEY_RIGHT s).mAF =
      s.mAF.setAutoFocusSpeed (s.mAF.autoFocusSpeed + 0.01) := by
  obtain ⟨st, m, cam, maya, af⟩ := s
  cases m
  case SET_FOCAL_LENGTH =>
    refine ⟨fun h => ?_, fun h => ⟨rfl, rfl⟩, rfl, rfl⟩
    rcases h with h | h <;> cases h
  case SET_FOCUS =>
    refine ⟨fun h => ?_, fun h => ⟨rfl, rfl⟩, rfl, rfl⟩
    rcases h with h | h <;> cases h
  case AUTO_FOCUS_SIMPLE =>
    refine ⟨fun h => ⟨rfl, rfl⟩, fun h => ?_, rfl, rfl⟩
    rcases h with h | h <;> cases h
  case AUTO_FOCUS_DEPTH =>
    refine ⟨fun h => ⟨rfl, rfl⟩, fun h => ?_, rfl, rfl⟩
    rcases h with h | h <;> cases h

/-- C9 witness: with AUTO_FOCUS_SIMPLE active in the concrete state
stateSimple, UP routes through the depth setter, and with SET_FOCUS active in
stateFocus, UP leaves the state unchanged. -/
theorem runtime_config_keys_witness :
    (keyDown .KEY_UP stateSimple).mAF =
      stateSimple.mAF.setAutoFocusDepth (stateSimple.mAF.autoFocusDepth +
        0.05) ∧
    keyDown .KEY_UP stateFocus = stateFocus :=
  ⟨((runtime_config_keys stateSimple).1 (Or.inl rfl)).1,
   ((runtime_config_keys stateFocus).2.1 (Or.inr rfl)).1⟩

end Stereo
